import Mathlib

/-!
# Option builders of package `pull` (go-git-cmd-wrapper)

A shallow embedding of `src/pull/pull.go`.  Every exported function of the
package is a configuration function over a `*types.Cmd`: it appends command
line tokens to the command.  A Go `func(*types.Cmd)` is embedded as a pure
function `Cmd → Cmd` (explicit state passing), a Go `string` as a Lean
`String`, and a Go `[]string` as a `List String`.  The package only
concatenates strings and tests them for emptiness, so the encoding of their
contents plays no role.

The package `types` (the command itself) is not part of the sources; its
operations follow section 4.1 of the specification.
-/

namespace types

/-- Modelled from the spec: the `types.Cmd` struct, whose declaration is not
among the sources.  The spec's data model describes a Command as an ordered
sequence of string tokens (sub-command, flags, positional arguments). -/
structure Cmd where
  tokens : List String
deriving DecidableEq, Repr

/-- Modelled from the spec: `New(subcommand) -> Command` initializes the token
sequence with the sub-command name. -/
def New (subcommand : String) : Cmd :=
  ⟨[subcommand]⟩

/-- Modelled from the spec: `AddOptions(tokens...)` appends the given tokens,
preserving order; it has no bounds and no error conditions. -/
def Cmd.AddOptions (g : Cmd) (tokens : List String) : Cmd :=
  ⟨g.tokens ++ tokens⟩

/-- Modelled from the spec: `Apply(config...)` invokes each configuration
function with the command, in argument order. -/
def Cmd.Apply (g : Cmd) (config : List (Cmd → Cmd)) : Cmd :=
  config.foldl (fun c f => f c) g

/-- Modelled from the spec: `Finalize()` returns the accumulated token
sequence. -/
def Cmd.Finalize (g : Cmd) : List String :=
  g.tokens

end types

namespace fmt

/-- Walk a format string: the first `%s` verb is replaced by the operand, all
other characters are copied unchanged. -/
def sprintfAux : List Char → List Char → List Char
  | [], _ => []
  | '%' :: 's' :: rest, arg => arg ++ rest
  | c :: rest, arg => c :: sprintfAux rest arg

/-- Go's `fmt.Sprintf(format, a)` for a format whose only verb is one `%s` and a
single string operand, which is how `pull.go` calls it. -/
def Sprintf (format : String) (a : String) : String :=
  ⟨sprintfAux format.data a.data⟩

end fmt

namespace pull

open types

/-- Go's builtin `len` on a string: the number of bytes. -/
def len (s : String) : Nat :=
  s.utf8ByteSize

/-- All: `--all` (pull.go, line 11). -/
def All (g : Cmd) : Cmd :=
  g.AddOptions ["--all"]

/-- AllowUnrelatedHistories: `--allow-unrelated-histories` (line 19). -/
def AllowUnrelatedHistories (g : Cmd) : Cmd :=
  g.AddOptions ["--allow-unrelated-histories"]

/-- Append: `-a, --append` (line 25). -/
def Append (g : Cmd) : Cmd :=
  g.AddOptions ["--append"]

/-- Autostash: `--autostash` (line 31). -/
def Autostash (g : Cmd) : Cmd :=
  g.AddOptions ["--autostash"]

/-- Commit: `--commit` (line 37). -/
def Commit (g : Cmd) : Cmd :=
  g.AddOptions ["--commit"]

/-- Deepen: `--deepen=<depth>` (line 43). -/
def Deepen (depth : String) : Cmd → Cmd :=
  fun g => g.AddOptions [fmt.Sprintf "--deepen=%s" depth]

/-- Depth: `--depth=<depth>` (line 51). -/
def Depth (value : String) : Cmd → Cmd :=
  fun g => g.AddOptions [fmt.Sprintf "--depth=%s" value]

/-- Edit: `--edit, -e` (line 59). -/
def Edit (g : Cmd) : Cmd :=
  g.AddOptions ["--edit"]

/-- Ff: `--ff` (line 65). -/
def Ff (g : Cmd) : Cmd :=
  g.AddOptions ["--ff"]

/-- FfOnly: `--ff-only` (line 71). -/
def FfOnly (g : Cmd) : Cmd :=
  g.AddOptions ["--ff-only"]

/-- Force: `-f, --force` (line 77). -/
def Force (g : Cmd) : Cmd :=
  g.AddOptions ["--force"]

/-- Ipv4: `-4, --ipv4` (line 83). -/
def Ipv4 (g : Cmd) : Cmd :=
  g.AddOptions ["--ipv4"]

/-- Ipv6: `-6, --ipv6` (line 89). -/
def Ipv6 (g : Cmd) : Cmd :=
  g.AddOptions ["--ipv6"]

/-- Keep: `-k, --keep` (line 95). -/
def Keep (g : Cmd) : Cmd :=
  g.AddOptions ["--keep"]

/-- Log: `--log[=<n>]` (line 101). -/
def Log (n : String) : Cmd → Cmd :=
  fun g =>
    if len n = 0 then
      g.AddOptions ["--log"]
    else
      g.AddOptions [fmt.Sprintf "--log=%s" n]

/-- NoAutostash: `--no-autostash` (line 113). -/
def NoAutostash (g : Cmd) : Cmd :=
  g.AddOptions ["--no-autostash"]

/-- NoCommit: `--no-commit` (line 119). -/
def NoCommit (g : Cmd) : Cmd :=
  g.AddOptions ["--no-commit"]

/-- NoEdit: `--no-edit` (line 125). -/
def NoEdit (g : Cmd) : Cmd :=
  g.AddOptions ["--no-edit"]

/-- NoFf: `--no-ff` (line 131). -/
def NoFf (g : Cmd) : Cmd :=
  g.AddOptions ["--no-ff"]

/-- NoLog: `--no-log` (line 137). -/
def NoLog (g : Cmd) : Cmd :=
  g.AddOptions ["--no-log"]

/-- NoRebase: `--no-rebase` (line 143). -/
def NoRebase (g : Cmd) : Cmd :=
  g.AddOptions ["--no-rebase"]

/-- NoRecurseSubmodules: `--no-recurse-submodules[=yes|on-demand|no]`
(line 149). -/
def NoRecurseSubmodules (value : String) : Cmd → Cmd :=
  fun g =>
    if len value = 0 then
      g.AddOptions ["--no-recurse-submodules"]
    else
      g.AddOptions [fmt.Sprintf "--no-recurse-submodules=%s" value]

/-- NoSquash: `--no-squash` (line 161). -/
def NoSquash (g : Cmd) : Cmd :=
  g.AddOptions ["--no-squash"]

/-- NoStat: `-n, --no-stat` (line 167). -/
def NoStat (g : Cmd) : Cmd :=
  g.AddOptions ["--no-stat"]

/-- NoTags: `--no-tags` (line 173). -/
def NoTags (g : Cmd) : Cmd :=
  g.AddOptions ["--no-tags"]

/-- NoVerifySignatures: `--no-verify-signatures` (line 179). -/
def NoVerifySignatures (g : Cmd) : Cmd :=
  g.AddOptions ["--no-verify-signatures"]

/-- Progress: `--progress` (line 185). -/
def Progress (g : Cmd) : Cmd :=
  g.AddOptions ["--progress"]

/-- Quiet: `-q, --quiet` (line 191). -/
def Quiet (g : Cmd) : Cmd :=
  g.AddOptions ["--quiet"]

/-- Rebase: `-r, --rebase[=false|true|preserve|interactive]` (line 197). -/
def Rebase (value : String) : Cmd → Cmd :=
  fun g =>
    if len value = 0 then
      g.AddOptions ["--rebase"]
    else
      g.AddOptions [fmt.Sprintf "--rebase=%s" value]

/-- RecurseSubmodules: `--recurse-submodules[=yes|on-demand|no]` (line 209). -/
def RecurseSubmodules (value : String) : Cmd → Cmd :=
  fun g =>
    if len value = 0 then
      g.AddOptions ["--recurse-submodules"]
    else
      g.AddOptions [fmt.Sprintf "--recurse-submodules=%s" value]

/-- ShallowExclude: `--shallow-exclude=<revision>` (line 221). -/
def ShallowExclude (revision : String) : Cmd → Cmd :=
  fun g => g.AddOptions [fmt.Sprintf "--shallow-exclude=%s" revision]

/-- ShallowSince: `--shallow-since=<date>` (line 229). -/
def ShallowSince (date : String) : Cmd → Cmd :=
  fun g => g.AddOptions [fmt.Sprintf "--shallow-since=%s" date]

/-- Squash: `--squash` (line 237). -/
def Squash (g : Cmd) : Cmd :=
  g.AddOptions ["--squash"]

/-- Stat: `--stat` (line 243). -/
def Stat (g : Cmd) : Cmd :=
  g.AddOptions ["--stat"]

/-- Strategy: `-s <strategy>, --strategy=<strategy>` (line 249). -/
def Strategy (value : String) : Cmd → Cmd :=
  fun g => g.AddOptions [fmt.Sprintf "--strategy=%s" value]

/-- StrategyOption: `-X <option>, --strategy-option=<option>` (line 257). -/
def StrategyOption (option : String) : Cmd → Cmd :=
  fun g => g.AddOptions [fmt.Sprintf "--strategy-option=%s" option]

/-- Unshallow: `--unshallow` (line 266). -/
def Unshallow (g : Cmd) : Cmd :=
  g.AddOptions ["--unshallow"]

/-- UpdateHeadOk: `-u, --update-head-ok` (line 272). -/
def UpdateHeadOk (g : Cmd) : Cmd :=
  g.AddOptions ["--update-head-ok"]

/-- UpdateShallow: `--update-shallow` (line 278). -/
def UpdateShallow (g : Cmd) : Cmd :=
  g.AddOptions ["--update-shallow"]

/-- UploadPack: `--upload-pack <upload-pack>` (line 284); two successive
`AddOptions` calls. -/
def UploadPack (value : String) : Cmd → Cmd :=
  fun g => (g.AddOptions ["--upload-pack"]).AddOptions [value]

/-- Verbose: `-v, --verbose` (line 293). -/
def Verbose (g : Cmd) : Cmd :=
  g.AddOptions ["--verbose"]

/-- VerifySignatures: `--verify-signatures` (line 299). -/
def VerifySignatures (g : Cmd) : Cmd :=
  g.AddOptions ["--verify-signatures"]

/-- Repository: the remote, appended as it is (line 304). -/
def Repository (remote : String) : Cmd → Cmd :=
  fun g => g.AddOptions [remote]

/-- Refspec: a `for ... range refs` loop with one `AddOptions` call per element
(line 311). -/
def Refspec (refs : List String) : Cmd → Cmd :=
  fun g => refs.foldl (fun c ref => c.AddOptions [ref]) g

/-- Names of the zero-argument (toggle) functions of the package. -/
inductive Toggle where
  | All
  | AllowUnrelatedHistories
  | Append
  | Autostash
  | Commit
  | Edit
  | Ff
  | FfOnly
  | Force
  | Ipv4
  | Ipv6
  | Keep
  | NoAutostash
  | NoCommit
  | NoEdit
  | NoFf
  | NoLog
  | NoRebase
  | NoSquash
  | NoStat
  | NoTags
  | NoVerifySignatures
  | Progress
  | Quiet
  | Squash
  | Stat
  | Unshallow
  | UpdateHeadOk
  | UpdateShallow
  | Verbose
  | VerifySignatures
deriving DecidableEq, Repr, Fintype

/-- The function of `pull.go` that a toggle name stands for. -/
def Toggle.fn : Toggle → Cmd → Cmd
  | .All => pull.All
  | .AllowUnrelatedHistories => pull.AllowUnrelatedHistories
  | .Append => pull.Append
  | .Autostash => pull.Autostash
  | .Commit => pull.Commit
  | .Edit => pull.Edit
  | .Ff => pull.Ff
  | .FfOnly => pull.FfOnly
  | .Force => pull.Force
  | .Ipv4 => pull.Ipv4
  | .Ipv6 => pull.Ipv6
  | .Keep => pull.Keep
  | .NoAutostash => pull.NoAutostash
  | .NoCommit => pull.NoCommit
  | .NoEdit => pull.NoEdit
  | .NoFf => pull.NoFf
  | .NoLog => pull.NoLog
  | .NoRebase => pull.NoRebase
  | .NoSquash => pull.NoSquash
  | .NoStat => pull.NoStat
  | .NoTags => pull.NoTags
  | .NoVerifySignatures => pull.NoVerifySignatures
  | .Progress => pull.Progress
  | .Quiet => pull.Quiet
  | .Squash => pull.Squash
  | .Stat => pull.Stat
  | .Unshallow => pull.Unshallow
  | .UpdateHeadOk => pull.UpdateHeadOk
  | .UpdateShallow => pull.UpdateShallow
  | .Verbose => pull.Verbose
  | .VerifySignatures => pull.VerifySignatures

/-- The long-form literal written in the doc comment of each toggle function. -/
def Toggle.literal : Toggle → String
  | .All => "--all"
  | .AllowUnrelatedHistories => "--allow-unrelated-histories"
  | .Append => "--append"
  | .Autostash => "--autostash"
  | .Commit => "--commit"
  | .Edit => "--edit"
  | .Ff => "--ff"
  | .FfOnly => "--ff-only"
  | .Force => "--force"
  | .Ipv4 => "--ipv4"
  | .Ipv6 => "--ipv6"
  | .Keep => "--keep"
  | .NoAutostash => "--no-autostash"
  | .NoCommit => "--no-commit"
  | .NoEdit => "--no-edit"
  | .NoFf => "--no-ff"
  | .NoLog => "--no-log"
  | .NoRebase => "--no-rebase"
  | .NoSquash => "--no-squash"
  | .NoStat => "--no-stat"
  | .NoTags => "--no-tags"
  | .NoVerifySignatures => "--no-verify-signatures"
  | .Progress => "--progress"
  | .Quiet => "--quiet"
  | .Squash => "--squash"
  | .Stat => "--stat"
  | .Unshallow => "--unshallow"
  | .UpdateHeadOk => "--update-head-ok"
  | .UpdateShallow => "--update-shallow"
  | .Verbose => "--verbose"
  | .VerifySignatures => "--verify-signatures"

/-- Names of the functions documented as `--flag[=<value>]`. -/
inductive OptionalFlag where
  | Log
  | NoRecurseSubmodules
  | Rebase
  | RecurseSubmodules
deriving DecidableEq, Repr

/-- The function of `pull.go` that an optional-value name stands for. -/
def OptionalFlag.fn : OptionalFlag → String → Cmd → Cmd
  | .Log => pull.Log
  | .NoRecurseSubmodules => pull.NoRecurseSubmodules
  | .Rebase => pull.Rebase
  | .RecurseSubmodules => pull.RecurseSubmodules

/-- The flag, without value, in the doc comment of each optional-value function. -/
def OptionalFlag.flag : OptionalFlag → String
  | .Log => "--log"
  | .NoRecurseSubmodules => "--no-recurse-submodules"
  | .Rebase => "--rebase"
  | .RecurseSubmodules => "--recurse-submodules"

/-- Names of the functions documented as `--flag=<value>`. -/
inductive MandatoryFlag where
  | Deepen
  | Depth
  | ShallowExclude
  | ShallowSince
  | Strategy
  | StrategyOption
deriving DecidableEq, Repr

/-- The function of `pull.go` that a mandatory-value name stands for. -/
def MandatoryFlag.fn : MandatoryFlag → String → Cmd → Cmd
  | .Deepen => pull.Deepen
  | .Depth => pull.Depth
  | .ShallowExclude => pull.ShallowExclude
  | .ShallowSince => pull.ShallowSince
  | .Strategy => pull.Strategy
  | .StrategyOption => pull.StrategyOption

/-- The flag, without value, in the doc comment of each mandatory-value function. -/
def MandatoryFlag.flag : MandatoryFlag → String
  | .Deepen => "--deepen"
  | .Depth => "--depth"
  | .ShallowExclude => "--shallow-exclude"
  | .ShallowSince => "--shallow-since"
  | .Strategy => "--strategy"
  | .StrategyOption => "--strategy-option"

/-- Names of the ten functions that format one string parameter into a flag. -/
inductive ParamFlag where
  | optional (f : OptionalFlag)
  | mandatory (f : MandatoryFlag)
deriving DecidableEq, Repr

/-- The function of `pull.go` that a parameterized name stands for. -/
def ParamFlag.fn : ParamFlag → String → Cmd → Cmd
  | .optional f => f.fn
  | .mandatory f => f.fn

/-- The flag, without value, of a parameterized function. -/
def ParamFlag.flag : ParamFlag → String
  | .optional f => f.flag
  | .mandatory f => f.flag

/-- Whether the doc comment writes the value in brackets, `--flag[=<value>]`. -/
def ParamFlag.isOptional : ParamFlag → Bool
  | .optional _ => true
  | .mandatory _ => false

/-- Every configuration function the package can produce: a toggle, a
parameterized flag with its argument, `UploadPack`, `Repository` or `Refspec`
with theirs. -/
inductive Config where
  | toggle (t : Toggle)
  | param (p : ParamFlag) (v : String)
  | uploadPack (v : String)
  | repository (r : String)
  | refspec (refs : List String)
deriving DecidableEq, Repr

/-- The `func(*types.Cmd)` value that a configuration stands for. -/
def Config.fn : Config → Cmd → Cmd
  | .toggle t => t.fn
  | .param p v => p.fn v
  | .uploadPack v => pull.UploadPack v
  | .repository r => pull.Repository r
  | .refspec refs => pull.Refspec refs

/-- The tokens a configuration function emits: what it leaves in a command that
held no token. -/
def Config.emitted (c : Config) : List String :=
  (c.fn ⟨[]⟩).tokens

end pull

/-! ## Auxiliary lemmas -/

namespace pull

open types

theorem utf8ByteSize_go_pos (c : Char) (cs : List Char) :
    0 < String.utf8ByteSize.go (c :: cs) := by
  have h := Char.utf8Size_pos c
  simp only [String.utf8ByteSize.go]
  omega

theorem len_eq_zero_iff (s : String) : len s = 0 ↔ s = "" := by
  constructor
  · intro h
    cases s with
    | mk cs =>
      cases cs with
      | nil => rfl
      | cons c cs =>
        have hp := utf8ByteSize_go_pos c cs
        simp only [len, String.utf8ByteSize] at h
        omega
  · intro h
    subst h
    rfl

theorem sprintf_deepen (v : String) :
    fmt.Sprintf "--deepen=%s" v = "--deepen" ++ "=" ++ v := by
  apply String.ext
  simp [fmt.Sprintf, fmt.sprintfAux]

theorem sprintf_depth (v : String) :
    fmt.Sprintf "--depth=%s" v = "--depth" ++ "=" ++ v := by
  apply String.ext
  simp [fmt.Sprintf, fmt.sprintfAux]

theorem sprintf_log (v : String) :
    fmt.Sprintf "--log=%s" v = "--log" ++ "=" ++ v := by
  apply String.ext
  simp [fmt.Sprintf, fmt.sprintfAux]

theorem sprintf_noRecurseSubmodules (v : String) :
    fmt.Sprintf "--no-recurse-submodules=%s" v = "--no-recurse-submodules" ++ "=" ++ v := by
  apply String.ext
  simp [fmt.Sprintf, fmt.sprintfAux]

theorem sprintf_rebase (v : String) :
    fmt.Sprintf "--rebase=%s" v = "--rebase" ++ "=" ++ v := by
  apply String.ext
  simp [fmt.Sprintf, fmt.sprintfAux]

theorem sprintf_recurseSubmodules (v : String) :
    fmt.Sprintf "--recurse-submodules=%s" v = "--recurse-submodules" ++ "=" ++ v := by
  apply String.ext
  simp [fmt.Sprintf, fmt.sprintfAux]

theorem sprintf_shallowExclude (v : String) :
    fmt.Sprintf "--shallow-exclude=%s" v = "--shallow-exclude" ++ "=" ++ v := by
  apply String.ext
  simp [fmt.Sprintf, fmt.sprintfAux]

theorem sprintf_shallowSince (v : String) :
    fmt.Sprintf "--shallow-since=%s" v = "--shallow-since" ++ "=" ++ v := by
  apply String.ext
  simp [fmt.Sprintf, fmt.sprintfAux]

theorem sprintf_strategy (v : String) :
    fmt.Sprintf "--strategy=%s" v = "--strategy" ++ "=" ++ v := by
  apply String.ext
  simp [fmt.Sprintf, fmt.sprintfAux]

theorem sprintf_strategyOption (v : String) :
    fmt.Sprintf "--strategy-option=%s" v = "--strategy-option" ++ "=" ++ v := by
  apply String.ext
  simp [fmt.Sprintf, fmt.sprintfAux]

theorem toggle_tokens (t : Toggle) (g : Cmd) :
    (t.fn g).tokens = g.tokens ++ [t.literal] := by
  cases t <;> rfl

theorem optional_tokens (f : OptionalFlag) (v : String) (g : Cmd) :
    (f.fn v g).tokens = g.tokens ++ [if v = "" then f.flag else f.flag ++ "=" ++ v] := by
  by_cases hv : v = ""
  · subst hv
    cases f <;> rfl
  · have hl : ¬ len v = 0 := fun h => hv ((len_eq_zero_iff v).mp h)
    cases f
    · simp only [OptionalFlag.fn, Log, if_neg hl, if_neg hv, Cmd.AddOptions, sprintf_log,
        OptionalFlag.flag]
    · simp only [OptionalFlag.fn, NoRecurseSubmodules, if_neg hl, if_neg hv, Cmd.AddOptions,
        sprintf_noRecurseSubmodules, OptionalFlag.flag]
    · simp only [OptionalFlag.fn, Rebase, if_neg hl, if_neg hv, Cmd.AddOptions, sprintf_rebase,
        OptionalFlag.flag]
    · simp only [OptionalFlag.fn, RecurseSubmodules, if_neg hl, if_neg hv, Cmd.AddOptions,
        sprintf_recurseSubmodules, OptionalFlag.flag]

theorem mandatory_tokens (f : MandatoryFlag) (v : String) (g : Cmd) :
    (f.fn v g).tokens = g.tokens ++ [f.flag ++ "=" ++ v] := by
  cases f
  · simp only [MandatoryFlag.fn, Deepen, Cmd.AddOptions, sprintf_deepen, MandatoryFlag.flag]
  · simp only [MandatoryFlag.fn, Depth, Cmd.AddOptions, sprintf_depth, MandatoryFlag.flag]
  · simp only [MandatoryFlag.fn, ShallowExclude, Cmd.AddOptions, sprintf_shallowExclude,
      MandatoryFlag.flag]
  · simp only [MandatoryFlag.fn, ShallowSince, Cmd.AddOptions, sprintf_shallowSince,
      MandatoryFlag.flag]
  · simp only [MandatoryFlag.fn, Strategy, Cmd.AddOptions, sprintf_strategy, MandatoryFlag.flag]
  · simp only [MandatoryFlag.fn, StrategyOption, Cmd.AddOptions, sprintf_strategyOption,
      MandatoryFlag.flag]

theorem uploadPack_tokens (v : String) (g : Cmd) :
    (UploadPack v g).tokens = g.tokens ++ ["--upload-pack", v] := by
  simp [UploadPack, Cmd.AddOptions]

theorem repository_tokens (r : String) (g : Cmd) :
    (Repository r g).tokens = g.tokens ++ [r] := rfl

theorem refspec_tokens (refs : List String) (g : Cmd) :
    (Refspec refs g).tokens = g.tokens ++ refs := by
  unfold Refspec
  induction refs generalizing g with
  | nil => simp
  | cons r rs ih =>
    simp only [List.foldl_cons]
    rw [ih]
    simp [Cmd.AddOptions]

theorem config_suffix (c : Config) :
    ∃ suffix : List String, ∀ g : Cmd, (c.fn g).tokens = g.tokens ++ suffix := by
  cases c with
  | toggle t => exact ⟨_, toggle_tokens t⟩
  | param p v =>
    cases p with
    | optional f => exact ⟨_, optional_tokens f v⟩
    | mandatory f => exact ⟨_, mandatory_tokens f v⟩
  | uploadPack v => exact ⟨_, uploadPack_tokens v⟩
  | repository r => exact ⟨_, repository_tokens r⟩
  | refspec refs => exact ⟨_, refspec_tokens refs⟩

theorem config_tokens (c : Config) (g : Cmd) :
    (c.fn g).tokens = g.tokens ++ c.emitted := by
  obtain ⟨suffix, h⟩ := config_suffix c
  have he : c.emitted = suffix := by
    simp [Config.emitted, h]
  rw [he, h]

theorem apply_tokens (cs : List Config) (g : Cmd) :
    (g.Apply (cs.map Config.fn)).tokens = g.tokens ++ cs.flatMap Config.emitted := by
  unfold Cmd.Apply
  induction cs generalizing g with
  | nil => simp
  | cons c cs ih =>
    simp only [List.map_cons, List.foldl_cons, List.flatMap_cons]
    rw [ih, config_tokens]
    simp

end pull

/-! ## The properties of the specification -/

namespace pull

open types

/-- C1 (as stated, refuted): `Depth("")` applied to a command holding only the
sub-command `pull` leaves the tokens `pull`, `--depth=`; it does not append
the bare flag `--depth`. -/
theorem depth_empty_not_bare_flag :
    (Depth "" (New "pull")).tokens = ["pull", "--depth="] ∧
    (Depth "" (New "pull")).tokens ≠ (New "pull").tokens ++ ["--depth"] := by
  decide

/-- C1 (amended): each of the ten parameterized flag functions, called with a
non-empty string `v`, appends the single token flag, `=`, `v`; called with the
empty string it appends the bare flag when its value is optional (Log,
NoRecurseSubmodules, Rebase, RecurseSubmodules) and the flag followed by `=`
when its value is mandatory (Deepen, Depth, ShallowExclude, ShallowSince,
Strategy, StrategyOption). -/
theorem param_flag_tokens (p : ParamFlag) (v : String) (g : Cmd) (hv : v ≠ "") :
    (p.fn v g).tokens = g.tokens ++ [p.flag ++ "=" ++ v] ∧
    (p.fn "" g).tokens =
      g.tokens ++ [if p.isOptional = true then p.flag else p.flag ++ "="] := by
  cases p with
  | optional f =>
    refine ⟨?_, ?_⟩
    · simp only [ParamFlag.fn, ParamFlag.flag, optional_tokens, if_neg hv]
    · simp only [ParamFlag.fn, ParamFlag.flag, ParamFlag.isOptional, optional_tokens, if_true]
  | mandatory f =>
    refine ⟨?_, ?_⟩
    · simp only [ParamFlag.fn, ParamFlag.flag, mandatory_tokens]
    · simp only [ParamFlag.fn, ParamFlag.flag, ParamFlag.isOptional, mandatory_tokens]
      simp

/-- C1 (amended), at `Strategy("ours")` on the command `pull`: the tokens become
`pull`, `--strategy=ours`, and `Strategy("")` gives `pull`, `--strategy=`. -/
theorem param_flag_tokens_witness :
    "ours" ≠ "" ∧
    (Strategy "ours" (New "pull")).tokens = ["pull", "--strategy=ours"] ∧
    (Strategy "" (New "pull")).tokens = ["pull", "--strategy="] :=
  ⟨by decide,
    param_flag_tokens (.mandatory .Strategy) "ours" (New "pull") (by decide)⟩

/-- C2: each of the 31 toggle functions, applied to a command with tokens `ts`,
yields `ts` followed by exactly one token, the long-form literal of the
function's doc comment. -/
theorem toggle_appends_literal (t : Toggle) (g : Cmd) :
    (t.fn g).tokens = g.tokens ++ [t.literal] ∧
    (t.fn g).tokens.length = g.tokens.length + 1 ∧
    Fintype.card Toggle = 31 := by
  refine ⟨toggle_tokens t g, ?_, rfl⟩
  rw [toggle_tokens]
  simp

/-- C3: each optional-value flag function (Log, NoRecurseSubmodules, Rebase,
RecurseSubmodules), applied with any string `v`, appends exactly one token: the
bare flag when `v` is empty, the flag followed by `=` and `v` otherwise.  The
token is never the flag followed by a bare `=`: its last character is the last
character of `v` when `v` is not empty, and otherwise the last character of
the flag, which is not `=`. -/
theorem optional_flag_token (f : OptionalFlag) (v : String) (g : Cmd) :
    ∃ tok : String,
      (f.fn v g).tokens = g.tokens ++ [tok] ∧
      tok = (if v = "" then f.flag else f.flag ++ "=" ++ v) ∧
      tok ≠ f.flag ++ "=" ∧
      tok.data.getLast? = (if v = "" then f.flag.data.getLast? else v.data.getLast?) ∧
      f.flag.data.getLast? ≠ some '=' := by
  refine ⟨_, optional_tokens f v g, rfl, ?_, ?_, ?_⟩
  · by_cases hv : v = ""
    · subst hv
      cases f <;> decide
    · rw [if_neg hv]
      intro h
      have hlen := congrArg String.length h
      simp only [String.length_append] at hlen
      have hpos : 0 < v.length := by
        cases v with
        | mk cs =>
          cases cs with
          | nil => exact absurd rfl hv
          | cons c cs => simp [String.length]
      omega
  · by_cases hv : v = ""
    · simp [hv]
    · rw [if_neg hv, if_neg hv]
      have hd : v.data ≠ [] := by
        intro h
        apply hv
        apply String.ext
        simpa using h
      simp only [String.data_append]
      rw [List.getLast?_append_of_ne_nil _ hd]
  · cases f <;> decide

/-- C4: each mandatory-value flag function (Deepen, Depth, ShallowExclude,
ShallowSince, Strategy, StrategyOption), applied with any string `v`, empty or
not, appends exactly one token equal to the flag, `=`, and `v`; in particular
`Depth("")` appends `--depth=`. -/
theorem mandatory_flag_token (f : MandatoryFlag) (v : String) (g : Cmd) :
    (f.fn v g).tokens = g.tokens ++ [f.flag ++ "=" ++ v] ∧
    (Depth v g).tokens = g.tokens ++ ["--depth=" ++ v] ∧
    (Depth "" g).tokens = g.tokens ++ ["--depth="] := by
  refine ⟨mandatory_tokens f v g, ?_, ?_⟩
  · exact mandatory_tokens .Depth v g
  · exact mandatory_tokens .Depth "" g

/-- C5: `UploadPack(v)`, for every string `v`, yields the tokens of the command
followed by exactly two tokens, `--upload-pack` and then `v` unchanged; neither
of them is the combined token `--upload-pack=v`, and the result is not the
command followed by that combined token. -/
theorem uploadPack_two_tokens (v : String) (g : Cmd) :
    (UploadPack v g).tokens = g.tokens ++ ["--upload-pack", v] ∧
    (UploadPack v g).tokens.length = g.tokens.length + 2 ∧
    "--upload-pack=" ++ v ∉ ["--upload-pack", v] ∧
    (UploadPack v g).tokens ≠ g.tokens ++ ["--upload-pack=" ++ v] := by
  have hl : "--upload-pack=".length = 14 := rfl
  have hs : "--upload-pack".length = 13 := rfl
  refine ⟨uploadPack_tokens v g, ?_, ?_, ?_⟩
  · rw [uploadPack_tokens]
    simp
  · intro hm
    simp only [List.mem_cons, List.mem_singleton, List.not_mem_nil, or_false] at hm
    rcases hm with h | h
    · have := congrArg String.length h
      simp only [String.length_append, hl, hs] at this
      omega
    · have := congrArg String.length h
      simp only [String.length_append, hl] at this
      omega
  · rw [uploadPack_tokens]
    intro h
    have := congrArg List.length h
    simp at this

/-- C6: `Refspec(refs...)`, for every list `refs` of any length, yields exactly
the tokens of the command followed by `refs`: one token per element, unchanged
and in the input order; `Refspec(a, b, c)` appends `a`, `b`, `c` and
`Refspec()` appends nothing. -/
theorem refspec_appends_refs (refs : List String) (a b c : String) (g : Cmd) :
    (Refspec refs g).tokens = g.tokens ++ refs ∧
    (Refspec [a, b, c] g).tokens = g.tokens ++ [a, b, c] ∧
    (Refspec [] g).tokens = g.tokens := by
  refine ⟨refspec_tokens refs g, refspec_tokens [a, b, c] g, rfl⟩

/-- C7: applying a list of configuration functions of the package to a command,
in argument order, yields the initial tokens followed by the tokens emitted by
each function in that order; on a command holding only the sub-command, the
list Force, Quiet, Depth("5") yields the sub-command, `--force`, `--quiet`,
`--depth=5`, and the empty list leaves just the sub-command. -/
theorem apply_in_order (cs : List Config) (g : Cmd) (sub : String) :
    (g.Apply (cs.map Config.fn)).Finalize = g.tokens ++ cs.flatMap Config.emitted ∧
    ((New sub).Apply [Force, Quiet, Depth "5"]).Finalize =
      [sub, "--force", "--quiet", "--depth=5"] ∧
    ((New sub).Apply []).Finalize = [sub] := by
  refine ⟨apply_tokens cs g, ?_, rfl⟩
  simp only [Cmd.Apply, Cmd.Finalize, List.foldl_cons, List.foldl_nil, Depth, Cmd.AddOptions,
    sprintf_depth, Quiet, Force, New]
  simp

/-- C8: every configuration function of the package (a toggle, or a
value-taking function with any argument), applied to a command with tokens
`ts`, returns a command whose tokens have `ts` as a prefix: the first
`ts.length` tokens of the result are `ts` itself. -/
theorem config_keeps_tokens (c : Config) (g : Cmd) :
    g.tokens <+: (c.fn g).tokens ∧
    (c.fn g).tokens.take g.tokens.length = g.tokens ∧
    g.tokens.length ≤ (c.fn g).tokens.length := by
  rw [config_tokens]
  refine ⟨List.prefix_append _ _, ?_, ?_⟩
  · simp
  · simp

/-- C9: toggles are not idempotent: a toggle applied twice to a command with
tokens `ts` yields `ts` followed by two copies of its literal, two tokens
longer than `ts` and different from the result of applying it once; `Ff` then
`FfOnly` appends both `--ff` and `--ff-only`. -/
theorem toggle_not_idempotent (t : Toggle) (g : Cmd) :
    (t.fn (t.fn g)).tokens = g.tokens ++ [t.literal, t.literal] ∧
    (t.fn (t.fn g)).tokens.length = g.tokens.length + 2 ∧
    t.fn (t.fn g) ≠ t.fn g ∧
    (FfOnly (Ff g)).tokens = g.tokens ++ ["--ff", "--ff-only"] := by
  have h2 : (t.fn (t.fn g)).tokens = g.tokens ++ [t.literal, t.literal] := by
    rw [toggle_tokens, toggle_tokens]
    simp
  refine ⟨h2, ?_, ?_, ?_⟩
  · rw [h2]
    simp
  · intro h
    have := congrArg (fun c => c.tokens.length) h
    simp only [h2, toggle_tokens] at this
    simp at this
  · simp [FfOnly, Ff, Cmd.AddOptions]

/-- C10: `Repository(r)`, for every string `r`, yields the tokens of the command
followed by exactly one token equal to `r`, unprefixed and unformatted; so
`Repository(r)` and `Refspec(r)` have the same effect on every command. -/
theorem repository_appends_remote (r : String) (g : Cmd) :
    (Repository r g).tokens = g.tokens ++ [r] ∧
    (Repository r g).tokens.length = g.tokens.length + 1 ∧
    Repository r g = Refspec [r] g := by
  refine ⟨rfl, ?_, rfl⟩
  rw [repository_tokens]
  simp

end pull
